import Mathlib

/-!
Verification of the progress-sync and authentication core of the
highschool-review application (`src/app.py`) against its specification.

The remote document store (Firestore) and the library hash functions
(hashlib md5/sha256) are external collaborators; they are modelled here as
explicit state (finite maps as functions) and abstract deterministic string
encodings. Everything else is translated directly from `src/app.py`.
-/

namespace HighschoolReview

/-- The fixed application id, `APP_ID = "highschool-pro-prod"` in `app.py`. -/
def APP_ID : String := "highschool-pro-prod"

/-- Modelled from the spec: `hashlib.md5(...).hexdigest()` is an external
library hash; modelled as an abstract deterministic encoding of its input
string.  No theorem below depends on anything but determinism (equal inputs
give equal digests). -/
def md5hex (s : String) : String := "md5:" ++ s

/-- Modelled from the spec: `hashlib.sha256(...).hexdigest()` used by
`hash_pwd` is an external library hash; modelled as an abstract deterministic
encoding of its input string. -/
def sha256hex (s : String) : String := "sha256:" ++ s

/-- `hash_pwd(pwd)` from `app.py`: the sha256 hex digest of the secret. -/
def hash_pwd (pwd : String) : String := sha256hex pwd

/-- The session-set / document key of a progress point: the f-string
`f"{sid}_{title}"` used both in `update_cloud_node` and in `sync_user_data`. -/
def mkKey (sid title : String) : String := sid ++ "_" ++ title

/-- The remote document id computed by `update_cloud_node`:
`hashlib.md5(f"{sid}_{title}".encode()).hexdigest()`. -/
def doc_id (sid title : String) : String := md5hex (mkKey sid title)

/-- The field map of one remote progress document.  Fields are optional
because a merge-write only touches the fields it supplies (tri-state
`is_mastered` / `is_difficult`: absent, 0 or 1). -/
structure ProgressFields where
  subject_id : Option String
  title : Option String
  update_at : Option String
  is_mastered : Option Nat
  is_difficult : Option Nat
deriving DecidableEq

/-- A document with no fields: what a merge-write merges into when the
document does not yet exist. -/
def emptyFields : ProgressFields := ⟨none, none, none, none, none⟩

/-- The per-user progress collection, as a map from document id to the
document's fields (`none` = no record with that id exists). -/
def Store : Type := String → Option ProgressFields

/-- A store with no records. -/
def emptyStore : Store := fun _ => none

/-- Field-level merge, the semantics of Firestore `set(fields, merge=True)`:
every field the new map supplies wins, every field it omits keeps the old
document's value. -/
def mergeFields (old new : ProgressFields) : ProgressFields where
  subject_id := new.subject_id.orElse fun _ => old.subject_id
  title := new.title.orElse fun _ => old.title
  update_at := new.update_at.orElse fun _ => old.update_at
  is_mastered := new.is_mastered.orElse fun _ => old.is_mastered
  is_difficult := new.is_difficult.orElse fun _ => old.is_difficult

/-- Firestore `doc_ref.set(fields, merge=True)` on the collection: an upsert
that merges into the existing document at `id`, or creates it (merging into
an empty document) when absent.  Other ids are untouched. -/
def setMerge (s : Store) (id : String) (f : ProgressFields) : Store :=
  fun k => if k = id then some (mergeFields ((s id).getD emptyFields) f) else s k

/-- The partial field map `update_data` built by `update_cloud_node`:
always `subject_id`, `title` and `update_at`; `is_mastered` only when the
caller passed `m` (coerced `1 if m else 0`), `is_difficult` only when the
caller passed `d`. -/
def update_data (sid title today : String) (m d : Option Bool) : ProgressFields where
  subject_id := some sid
  title := some title
  update_at := some today
  is_mastered := m.map fun b => if b then 1 else 0
  is_difficult := d.map fun b => if b then 1 else 0

/-- The store effect of a successful `update_cloud_node(user_id, sid, title,
m, d)`: a merge-write of `update_data` at document id
`md5(f"{sid}_{title}")` inside the active user's progress subtree (the
`Store` models that one subtree, so `user_id` only selects which store). -/
def update_cloud_node_store (s : Store) (sid title today : String)
    (m d : Option Bool) : Store :=
  setMerge s (doc_id sid title) (update_data sid title today m d)

/-- C1. The document id a push computes is the (deterministic) hash of
`subject_id + "_" + title`, and two successive pushes for the same
(subject_id, title) — whatever their flags or timestamps — leave a record at
exactly that one id: an id holds a record afterwards iff it already did
before or it is `doc_id sid title`, so repeated pushes address one remote
record and never create duplicates. -/
theorem push_doc_id_deterministic_no_duplicates
    (sid title t1 t2 : String) (m1 d1 m2 d2 : Option Bool) (s : Store) :
    doc_id sid title = md5hex (sid ++ "_" ++ title) ∧
    ∀ k : String,
      (((update_cloud_node_store (update_cloud_node_store s sid title t1 m1 d1)
          sid title t2 m2 d2) k).isSome
        ↔ ((s k).isSome ∨ k = doc_id sid title)) := by
  refine ⟨rfl, fun k => ?_⟩
  unfold update_cloud_node_store setMerge
  by_cases h : k = doc_id sid title <;> simp [h]

/-- C9. The composite-key function (subject_id, title) ↦ `subject_id + "_" +
title` is not injective: the distinct pairs ("math", "a_b") and ("math_a",
"b") yield the same key string, hence the same remote document id, and a
push for the first pair creates/updates the record that a push or pull for
the second pair addresses (one aliased record, one aliased set entry). -/
theorem composite_key_not_injective :
    (("math", "a_b") : String × String) ≠ ("math_a", "b") ∧
    mkKey "math" "a_b" = mkKey "math_a" "b" ∧
    doc_id "math" "a_b" = doc_id "math_a" "b" ∧
    ((update_cloud_node_store emptyStore "math" "a_b" "2026-01-01"
        (some true) none) (doc_id "math_a" "b")).isSome = true := by
  refine ⟨by decide, by decide, by decide, ?_⟩
  decide

/-- C4. A push that supplies only the mastered flag builds a field map with
no `is_difficult` entry, and — the write being a field-level merge — the
resulting document keeps the old document's `is_difficult` value unchanged;
symmetrically, a push supplying only the difficult flag keeps `is_mastered`
unchanged. -/
theorem partial_push_preserves_other_flag
    (s : Store) (sid title today : String) (b : Bool) (old : ProgressFields)
    (h : s (doc_id sid title) = some old) :
    ((update_data sid title today (some b) none).is_difficult = none ∧
      ∃ doc : ProgressFields,
        (update_cloud_node_store s sid title today (some b) none)
            (doc_id sid title) = some doc ∧
        doc.is_difficult = old.is_difficult) ∧
    ((update_data sid title today none (some b)).is_mastered = none ∧
      ∃ doc : ProgressFields,
        (update_cloud_node_store s sid title today none (some b))
            (doc_id sid title) = some doc ∧
        doc.is_mastered = old.is_mastered) := by
  constructor
  · refine ⟨rfl, ?_⟩
    refine ⟨mergeFields old (update_data sid title today (some b) none), ?_, rfl⟩
    unfold update_cloud_node_store setMerge
    simp [h]
  · refine ⟨rfl, ?_⟩
    refine ⟨mergeFields old (update_data sid title today none (some b)), ?_, rfl⟩
    unfold update_cloud_node_store setMerge
    simp [h]

/-- Concrete instance of C4: on a store holding a document for
("math", "X") with `is_difficult = 1`, a mastered-only push leaves
`is_difficult = 1` on that document. -/
theorem partial_push_preserves_other_flag_witness :
    (update_data "math" "X" "2026-01-01" (some true) none).is_difficult = none ∧
    ∃ doc : ProgressFields,
      (update_cloud_node_store
          (fun k => if k = doc_id "math" "X"
            then some ⟨some "math", some "X", some "2025-12-31", none, some 1⟩
            else none)
          "math" "X" "2026-01-01" (some true) none) (doc_id "math" "X")
        = some doc ∧
      doc.is_difficult = some 1 :=
  (partial_push_preserves_other_flag
    (fun k => if k = doc_id "math" "X"
      then some ⟨some "math", some "X", some "2025-12-31", none, some 1⟩
      else none)
    "math" "X" "2026-01-01" true
    ⟨some "math", some "X", some "2025-12-31", none, some 1⟩
    (by simp)).1

/-- The process-local session state of `app.py` (`st.session_state`): the
fields the sync/auth core reads and writes. -/
structure SessionState where
  logged_in : Bool
  started : Bool
  data_synced : Bool
  mastered_points : Finset String
  difficult_points : Finset String
  user_contact : Option String
  sent_code : Option String
deriving DecidableEq

/-- One document streamed from the per-user progress collection, as
`sync_user_data` reads it: `data['subject_id']` and `data['title']` are
accessed unconditionally (every record this application writes carries both,
via `update_data`), while the flags use `data.get(...)` and so are optional. -/
structure PulledRecord where
  subject_id : String
  title : String
  is_mastered : Option Nat
  is_difficult : Option Nat
deriving DecidableEq

/-- The body of `sync_user_data`'s `for doc in docs` loop: fold one record
into the (mastered, difficult) accumulator, inserting the key
`f"{subject_id}_{title}"` into a set exactly when the corresponding flag
equals 1. -/
def pullStep (acc : Finset String × Finset String) (r : PulledRecord) :
    Finset String × Finset String :=
  (if r.is_mastered = some 1 then insert (mkKey r.subject_id r.title) acc.1 else acc.1,
   if r.is_difficult = some 1 then insert (mkKey r.subject_id r.title) acc.2 else acc.2)

/-- The two sets `sync_user_data` builds from scratch (`mastered, difficult =
set(), set()`) out of the streamed collection. -/
def foldPull (docs : List PulledRecord) : Finset String × Finset String :=
  docs.foldl pullStep (∅, ∅)

/-- A successful `sync_user_data(user_id)`: replace the session's
`mastered_points` and `difficult_points` with the freshly folded sets and set
`data_synced = True`.  `docs` is the content the stream returned. -/
def sync_user_data (st : SessionState) (docs : List PulledRecord) :
    SessionState :=
  { st with
    mastered_points := (foldPull docs).1
    difficult_points := (foldPull docs).2
    data_synced := true }

lemma mem_foldl_pullStep (docs : List PulledRecord)
    (acc : Finset String × Finset String) (k : String) :
    (k ∈ (docs.foldl pullStep acc).1 ↔
      k ∈ acc.1 ∨ ∃ r ∈ docs, r.is_mastered = some 1 ∧ k = mkKey r.subject_id r.title) ∧
    (k ∈ (docs.foldl pullStep acc).2 ↔
      k ∈ acc.2 ∨ ∃ r ∈ docs, r.is_difficult = some 1 ∧ k = mkKey r.subject_id r.title) := by
  induction docs generalizing acc with
  | nil => simp
  | cons r rest ih =>
    rw [List.foldl_cons]
    constructor
    · rw [(ih (pullStep acc r)).1]
      by_cases hm : r.is_mastered = some 1
      · simp [pullStep, hm]
        tauto
      · simp [pullStep, hm]
    · rw [(ih (pullStep acc r)).2]
      by_cases hd : r.is_difficult = some 1
      · simp [pullStep, hd]
        tauto
      · simp [pullStep, hd]

/-- C2. After a successful pull, the mastered set is exactly the set of keys
`{subject_id}_{title}` of streamed records with `is_mastered = 1`, and
likewise the difficult set for `is_difficult = 1` — whatever the session's
sets held before the pull (full replace, never a union: a record with
`is_mastered ≠ 1` contributes nothing, so a stale key disappears). -/
theorem pull_full_replace (st : SessionState) (docs : List PulledRecord)
    (k : String) :
    (k ∈ (sync_user_data st docs).mastered_points ↔
      ∃ r ∈ docs, r.is_mastered = some 1 ∧ k = mkKey r.subject_id r.title) ∧
    (k ∈ (sync_user_data st docs).difficult_points ↔
      ∃ r ∈ docs, r.is_difficult = some 1 ∧ k = mkKey r.subject_id r.title) ∧
    (sync_user_data st docs).data_synced = true := by
  have h := mem_foldl_pullStep docs (∅, ∅) k
  refine ⟨?_, ?_, rfl⟩
  · simpa [sync_user_data, foldPull] using h.1
  · simpa [sync_user_data, foldPull] using h.2

/-- Classified remote-store failures (google.api_core exception classes the
source names, plus the catch-all). -/
inductive RemoteErr
  | serviceUnavailable
  | retryError
  | permissionDenied
  | notFound
  | other
deriving DecidableEq

/-- `update_cloud_node` with its `try/except Exception: pass` made explicit:
`res` is the outcome of the single remote `doc_ref.set` attempt.  On success
the merge-write lands in the store; on any failure the except clause
swallows the exception, so the function returns normally (`Except.ok`) with
the store unchanged in both cases — it never propagates an error. -/
def update_cloud_node_except (s : Store) (res : Except RemoteErr Unit)
    (sid title today : String) (m d : Option Bool) : Except RemoteErr Store :=
  match res with
  | .ok _ => .ok (update_cloud_node_store s sid title today m d)
  | .error _ => .ok s

/-- The review-mode difficult-toggle button handler (`app.py` lines
327–330): push `d = not is_d` through `update_cloud_node`, then `add` the
key if it was not difficult, else `discard` it.  An exception escaping the
push would propagate (`.error`); the theorem below shows none does. -/
def toggle_difficult_handler (st : SessionState) (s : Store)
    (res : Except RemoteErr Unit) (sid title today : String) :
    Except RemoteErr (SessionState × Store) :=
  let key := mkKey sid title
  let is_d : Bool := decide (key ∈ st.difficult_points)
  match update_cloud_node_except s res sid title today none (some (!is_d)) with
  | .error e => .error e
  | .ok s2 =>
      .ok (if is_d
            then { st with difficult_points := st.difficult_points.erase key }
            else { st with difficult_points := insert key st.difficult_points },
           s2)

/-- The review-mode mastered checkbox handler (`app.py` lines 331–337):
when the checkbox reads true and the key was not mastered, push `m=True`
and `add` the key; when it reads false and the key was mastered, push
`m=False` and `discard` it; otherwise do nothing. -/
def mastered_checkbox_handler (st : SessionState) (s : Store)
    (res : Except RemoteErr Unit) (sid title today : String)
    (checked : Bool) : Except RemoteErr (SessionState × Store) :=
  let key := mkKey sid title
  let is_m : Bool := decide (key ∈ st.mastered_points)
  if checked then
    if !is_m then
      match update_cloud_node_except s res sid title today (some true) none with
      | .error e => .error e
      | .ok s2 => .ok ({ st with mastered_points := insert key st.mastered_points }, s2)
    else .ok (st, s)
  else if is_m then
    match update_cloud_node_except s res sid title today (some false) none with
    | .error e => .error e
    | .ok s2 => .ok ({ st with mastered_points := st.mastered_points.erase key }, s2)
  else .ok (st, s)

/-- C5. Whatever the outcome `res` of the underlying remote write, both
toggle handlers return normally (`Except.ok`, never an error: the push
swallows its failure), and the session-local sets are updated exactly by
add/discard of the toggled key — the difficult toggle flips membership of
the key in `difficult_points`, the mastered checkbox makes membership in
`mastered_points` track the checkbox — independent of push success. -/
theorem toggle_updates_sets_despite_push_failure
    (st : SessionState) (s : Store) (res : Except RemoteErr Unit)
    (sid title today : String) (checked : Bool) :
    (∃ out : SessionState × Store,
      toggle_difficult_handler st s res sid title today = .ok out ∧
      out.1.difficult_points =
        (if mkKey sid title ∈ st.difficult_points
          then st.difficult_points.erase (mkKey sid title)
          else insert (mkKey sid title) st.difficult_points) ∧
      out.1.mastered_points = st.mastered_points) ∧
    (∃ out : SessionState × Store,
      mastered_checkbox_handler st s res sid title today checked = .ok out ∧
      out.1.mastered_points =
        (if checked
          then insert (mkKey sid title) st.mastered_points
          else st.mastered_points.erase (mkKey sid title)) ∧
      out.1.difficult_points = st.difficult_points) := by
  constructor
  · by_cases hd : mkKey sid title ∈ st.difficult_points <;>
      cases res <;>
        simp [toggle_difficult_handler, update_cloud_node_except, hd]
  · by_cases hm : mkKey sid title ∈ st.mastered_points <;>
      cases checked <;>
        cases res <;>
          simp [mastered_checkbox_handler, update_cloud_node_except, hm,
            Finset.insert_eq_self.mpr, Finset.erase_eq_self.mpr,
            Finset.insert_eq_self, Finset.erase_eq_self]

/-- A credential document as `auth_page` writes it:
`{"password": hash_pwd(...), "reg_date": str(date.today())}`. -/
structure Cred where
  password : String
  reg_date : String
deriving DecidableEq

/-- The shared public data under `artifacts/{APP_ID}/public/data`: the
credential documents `users/{uid}` and the `user_count` field of the single
`stats/global` document. -/
structure PublicData where
  users : String → Option Cred
  user_count : Nat

/-- A remote write the registration branch can issue: creating a credential
document (`user_ref.set({...})`), or the atomic counter increment
(`set({"user_count": firestore.Increment(n)}, merge=True)`) — an increment
primitive applied by the store, not a read-modify-write. -/
inductive WriteOp
  | setUserCred (uid : String) (c : Cred)
  | statsIncrement (n : Nat)
deriving DecidableEq

/-- Apply one remote write to the public data. -/
def applyOp (pd : PublicData) (op : WriteOp) : PublicData :=
  match op with
  | .setUserCred uid c =>
      { pd with users := fun k => if k = uid then some c else pd.users k }
  | .statsIncrement n => { pd with user_count := pd.user_count + n }

/-- Apply a list of remote writes in order. -/
def applyOps (pd : PublicData) (ops : List WriteOp) : PublicData :=
  ops.foldl applyOp pd

/-- How the registration branch ends: one of the four local validation
errors, or success. -/
inductive RegisterOutcome
  | pwMismatch
  | codeMismatch
  | tooShort
  | duplicate
  | success
deriving DecidableEq

/-- The REGISTER button branch of `auth_page` (`app.py` lines 254–264): the
checks in source order — password confirmation, verification code against
`st.session_state.get('sent_code')`, secret length at least 5, then the
remote existence check — and, only when all pass, the two remote writes:
the credential document and the atomic counter increment. -/
def register (pd : PublicData) (r_u r_p r_p2 v_in : String)
    (sent_code : Option String) (today : String) :
    RegisterOutcome × List WriteOp :=
  if r_p ≠ r_p2 then (.pwMismatch, [])
  else if some v_in ≠ sent_code then (.codeMismatch, [])
  else if r_p.length < 5 then (.tooShort, [])
  else if (pd.users r_u).isSome then (.duplicate, [])
  else (.success, [.setUserCred r_u ⟨hash_pwd r_p, today⟩, .statsIncrement 1])

/-- C6. Registering an identifier that already has a credential record (with
the local validations passing) fails with the duplicate-identifier error,
issues no remote write — so the credential map and `user_count` are both
unchanged — while a successful registration issues exactly one credential
write and one atomic `Increment(1)`, raising `user_count` by exactly one. -/
theorem duplicate_register_rejected_and_counter_atomic
    (pd : PublicData) (r_u r_p v_in today : String)
    (hlen : ¬ r_p.length < 5) :
    ((pd.users r_u).isSome →
      (register pd r_u r_p r_p v_in (some v_in) today).1 = .duplicate ∧
      (register pd r_u r_p r_p v_in (some v_in) today).2 = [] ∧
      applyOps pd (register pd r_u r_p r_p v_in (some v_in) today).2 = pd) ∧
    (pd.users r_u = none →
      (register pd r_u r_p r_p v_in (some v_in) today).1 = .success ∧
      (register pd r_u r_p r_p v_in (some v_in) today).2 =
        [.setUserCred r_u ⟨hash_pwd r_p, today⟩, .statsIncrement 1] ∧
      (applyOps pd (register pd r_u r_p r_p v_in (some v_in) today).2).user_count
        = pd.user_count + 1) := by
  constructor
  · intro hdup
    refine ⟨?_, ?_, ?_⟩ <;> simp [register, hlen, hdup, applyOps]
  · intro hnone
    refine ⟨?_, ?_, ?_⟩ <;> simp [register, hlen, hnone, applyOps, applyOp]

/-- Concrete instance of C6: with "bob" already registered, a second
registration of "bob" yields the duplicate error and no writes; on a store
without "bob" it succeeds and bumps the counter from 7 to 8. -/
theorem duplicate_register_rejected_witness :
    ((register
        ⟨fun k => if k = "bob" then some ⟨hash_pwd "old", "2025-01-01"⟩ else none, 7⟩
        "bob" "12345" "12345" "0000" (some "0000") "2026-01-01").1 = .duplicate ∧
      (register
        ⟨fun k => if k = "bob" then some ⟨hash_pwd "old", "2025-01-01"⟩ else none, 7⟩
        "bob" "12345" "12345" "0000" (some "0000") "2026-01-01").2 = []) ∧
    (applyOps ⟨fun _ => none, 7⟩
        (register ⟨fun _ => none, 7⟩
          "bob" "12345" "12345" "0000" (some "0000") "2026-01-01").2).user_count = 8 := by
  constructor
  · have h := (duplicate_register_rejected_and_counter_atomic
      ⟨fun k => if k = "bob" then some ⟨hash_pwd "old", "2025-01-01"⟩ else none, 7⟩
      "bob" "12345" "0000" "2026-01-01" (by decide)).1 (by simp)
    exact ⟨h.1, h.2.1⟩
  · exact ((duplicate_register_rejected_and_counter_atomic
      ⟨fun _ => none, 7⟩ "bob" "12345" "0000" "2026-01-01" (by decide)).2 rfl).2.2

/-- C10. Registration succeeds exactly when the password confirmation
matches, the supplied verification code equals the session's most recently
issued `sent_code`, the secret has length at least 5, and the identifier has
no credential record; and remote writes happen only on success (every
failing branch issues none). -/
theorem register_requires_code_and_writes_only_on_success
    (pd : PublicData) (r_u r_p r_p2 v_in : String)
    (sent_code : Option String) (today : String) :
    ((register pd r_u r_p r_p2 v_in sent_code today).1 = .success ↔
      (r_p = r_p2 ∧ some v_in = sent_code ∧ 5 ≤ r_p.length ∧ pd.users r_u = none)) ∧
    (register pd r_u r_p r_p2 v_in sent_code today).2 =
      (if (register pd r_u r_p r_p2 v_in sent_code today).1 = .success
        then [.setUserCred r_u ⟨hash_pwd r_p, today⟩, .statsIncrement 1]
        else []) := by
  unfold register
  split_ifs with h1 h2 h3 h4 <;>
    simp_all [Option.isSome_iff_ne_none, Nat.not_lt, Nat.lt_iff_add_one_le]

/-- What a LOGIN attempt produces: the public data after it (the admin
bootstrap may have written a credential), the session state after it, whether
`sync_user_data` (a pull) was triggered, and whether the failure message was
shown. -/
structure LoginOutcome where
  pd : PublicData
  session : SessionState
  pulled : Bool
  errorShown : Bool

/-- The admin special case of `auth_page` (`app.py` lines 226–229): when the
identifier is "admin", no credential document exists and the supplied secret
is "admin", write `{"password": hash_pwd("admin"), "reg_date": today}`;
otherwise leave the store untouched. -/
def adminBootstrap (pd : PublicData) (l_u l_p today : String) : PublicData :=
  if l_u = "admin" ∧ pd.users l_u = none ∧ l_p = "admin" then
    { pd with
      users := fun k =>
        if k = "admin" then some ⟨hash_pwd "admin", today⟩ else pd.users k }
  else pd

/-- The LOGIN button branch of `auth_page` (`app.py` lines 222–236): read
the credential document, run the admin bootstrap, re-read, and when the
document exists with `password == hash_pwd(l_p)` set `logged_in`,
`user_contact` and pull via `sync_user_data` (with stream content `docs`);
otherwise show the failure message and leave the session untouched. -/
def login (pd : PublicData) (st : SessionState) (docs : List PulledRecord)
    (l_u l_p today : String) : LoginOutcome :=
  match (adminBootstrap pd l_u l_p today).users l_u with
  | some c =>
      if c.password = hash_pwd l_p then
        { pd := adminBootstrap pd l_u l_p today
          session := sync_user_data
            { st with logged_in := true, user_contact := some l_u } docs
          pulled := true
          errorShown := false }
      else
        { pd := adminBootstrap pd l_u l_p today
          session := st, pulled := false, errorShown := true }
  | none =>
      { pd := adminBootstrap pd l_u l_p today
        session := st, pulled := false, errorShown := true }

lemma login_pd_eq (pd : PublicData) (st : SessionState)
    (docs : List PulledRecord) (l_u l_p today : String) :
    (login pd st docs l_u l_p today).pd = adminBootstrap pd l_u l_p today := by
  unfold login
  split
  · split <;> rfl
  · rfl

/-- C7. A login for an identifier that has a credential record whose stored
hash differs from the hash of the supplied secret fails: the error message
is shown, the session state is returned unchanged (so it remains logged
out), no pull is triggered, and nothing is written to the public data. -/
theorem wrong_secret_login_fails_no_pull
    (pd : PublicData) (st : SessionState) (docs : List PulledRecord)
    (l_u l_p today : String) (c : Cred)
    (hc : pd.users l_u = some c) (hpw : c.password ≠ hash_pwd l_p) :
    login pd st docs l_u l_p today = ⟨pd, st, false, true⟩ := by
  have hb : adminBootstrap pd l_u l_p today = pd := by
    simp [adminBootstrap, hc]
  unfold login
  rw [hb, hc]
  simp [hpw]

/-- Concrete instance of C7: "carol" exists with the hash of "right"; a
login as "carol" with secret "wrong" shows the error, keeps the session
(here: a fresh logged-out one) unchanged and pulls nothing. -/
theorem wrong_secret_login_fails_no_pull_witness :
    login
      ⟨fun k => if k = "carol" then some ⟨hash_pwd "right", "2025-01-01"⟩ else none, 1⟩
      ⟨false, false, false, ∅, ∅, none, none⟩ [] "carol" "wrong" "2026-01-01"
      = ⟨⟨fun k => if k = "carol" then some ⟨hash_pwd "right", "2025-01-01"⟩ else none, 1⟩,
         ⟨false, false, false, ∅, ∅, none, none⟩, false, true⟩ :=
  wrong_secret_login_fails_no_pull
    ⟨fun k => if k = "carol" then some ⟨hash_pwd "right", "2025-01-01"⟩ else none, 1⟩
    ⟨false, false, false, ∅, ∅, none, none⟩ [] "carol" "wrong" "2026-01-01"
    ⟨hash_pwd "right", "2025-01-01"⟩ (by simp) (by simp [hash_pwd, sha256hex])

/-- C8. The admin bootstrap: when no credential record for "admin" exists
and the supplied secret is the fixed bootstrap value "admin", a credential
record holding the hash of "admin" and the registration date is
auto-provisioned and the login succeeds (session logged in, pull
triggered); a login under any other identifier, or when the "admin" record
already exists, writes nothing to the public data. -/
theorem admin_bootstrap_provision
    (pd : PublicData) (st : SessionState) (docs : List PulledRecord)
    (today l_u l_p : String) :
    (pd.users "admin" = none →
      (login pd st docs "admin" "admin" today).pd.users "admin"
          = some ⟨hash_pwd "admin", today⟩ ∧
      (login pd st docs "admin" "admin" today).session.logged_in = true ∧
      (login pd st docs "admin" "admin" today).pulled = true) ∧
    (l_u ≠ "admin" → (login pd st docs l_u l_p today).pd = pd) ∧
    (∀ c : Cred, pd.users "admin" = some c →
      (login pd st docs "admin" l_p today).pd = pd) := by
  refine ⟨?_, ?_, ?_⟩
  · intro hA
    have hb : (adminBootstrap pd "admin" "admin" today).users "admin"
        = some ⟨hash_pwd "admin", today⟩ := by
      simp [adminBootstrap, hA]
    refine ⟨?_, ?_, ?_⟩
    · rw [login_pd_eq]; exact hb
    · unfold login; rw [hb]; simp [sync_user_data]
    · unfold login; rw [hb]; simp
  · intro hu
    rw [login_pd_eq]; simp [adminBootstrap, hu]
  · intro c hc
    rw [login_pd_eq]; simp [adminBootstrap, hc]

/-- The remote `set` attempts `update_cloud_node` issues, embedded over an
oracle `res` giving the outcome of the i-th attempt: the body is straight-
line code with a single `doc_ref.set` call and no loop, so exactly one
attempt (`[res 0]`) is consumed, and the surrounding
`try/except Exception: pass` makes the function return `()` normally
whatever that attempt's outcome. -/
def update_cloud_node_calls (res : Nat → Except RemoteErr Unit) :
    List (Except RemoteErr Unit) × Except RemoteErr Unit :=
  ([res 0],
   match res 0 with
   | .ok _ => .ok ()
   | .error _ => .ok ())

/-- The remote `stream` attempts `sync_user_data` issues, embedded the same
way: one attempt, and on its failure the `except` branch shows the sync
error (`true` flag) and leaves the session unchanged — no retry. -/
def sync_user_data_calls (st : SessionState)
    (res : Nat → Except RemoteErr (List PulledRecord)) :
    List (Except RemoteErr (List PulledRecord)) × SessionState × Bool :=
  ([res 0],
   match res 0 with
   | .ok docs => (sync_user_data st docs, false)
   | .error _ => (st, true))

/-- A remote that fails with a transient `ServiceUnavailable` on every
attempt. -/
def allFailUnavailable : Nat → Except RemoteErr Unit :=
  fun _ => .error .serviceUnavailable

/-- C3 counterexample. Against a remote failing transiently on every
attempt, a push makes exactly 1 attempt — not the claimed 3 or 4 — and
returns the default `()` normally instead of raising a classified transient
error: there is no retry layer in the code. -/
theorem no_retry_counterexample :
    (update_cloud_node_calls allFailUnavailable).1.length = 1 ∧
    (update_cloud_node_calls allFailUnavailable).1.length ≠ 3 ∧
    (update_cloud_node_calls allFailUnavailable).1.length ≠ 4 ∧
    (update_cloud_node_calls allFailUnavailable).2 = .ok () :=
  ⟨rfl, by decide, by decide, rfl⟩

/-- C3 (amended). The code has no retry loop and no backoff: every remote
call is attempted exactly once, whatever the failure class.  A failing push
is swallowed (`update_cloud_node` returns normally with no error raised),
and a failing pull shows the sync-error message and leaves the session
state unchanged, without retrying. -/
theorem single_attempt_no_retry (st : SessionState)
    (res : Nat → Except RemoteErr Unit)
    (resPull : Nat → Except RemoteErr (List PulledRecord)) :
    (update_cloud_node_calls res).1.length = 1 ∧
    (update_cloud_node_calls res).2 = .ok () ∧
    (sync_user_data_calls st resPull).1.length = 1 ∧
    (∀ e : RemoteErr, resPull 0 = .error e →
      (sync_user_data_calls st resPull).2 = (st, true)) := by
  refine ⟨rfl, ?_, rfl, ?_⟩
  · cases h : res 0 <;> simp [update_cloud_node_calls, h]
  · intro e he
    simp [sync_user_data_calls, he]

end HighschoolReview
